import Mathlib

/-!
Verification of `crates/database/src/vector_index_worker/vector_meta.rs`:
the vector specialization of the segment-based search-index build engine.

We shallowly embed the data model (persisted `VectorIndexState` /
`VectorIndexSnapshotData` records, the working `SearchOnDiskState` /
`SnapshotData` representation, `FragmentedVectorSegment`, `VectorStatistics`)
and the conversion / statistics operations defined in that file, and prove
the stated properties about them.  Fallible Rust functions returning
`anyhow::Result` are embedded as `Except String`.
-/

namespace VectorMeta

/-- Opaque JSON-like payload (`ConvexObject`) carried by the forward-compatible
`Unknown` variants.  Its contents are never inspected by the code under
verification, only moved around, so we model it as a wrapped string. -/
structure ConvexObject where
  payload : String
  deriving DecidableEq, Repr

/-- Opaque storage key carried by the `SingleSegment` variant of the generic
`SnapshotData`.  The vector code only ever pattern-matches it with `_`. -/
structure ObjectKey where
  key : String
  deriving DecidableEq, Repr

/-- A fragmented vector segment descriptor (`FragmentedVectorSegment` from the
`common` crate's bootstrap model).  The fields used by `vector_meta.rs` are the
string `id`, the `num_vectors` total count (u32) and the `num_deleted`
tombstone count (u32); we carry them as `Nat`. -/
structure FragmentedVectorSegment where
  id : String
  num_vectors : Nat
  num_deleted : Nat
  deriving DecidableEq, Repr

/-- Modelled from the spec: `FragmentedVectorSegment::non_deleted_vectors` is
defined in the `common` crate, outside the provided sources.  The spec states
that a segment's statistics are "computed from the segment's own metadata (no
data-blob read required)"; we model the self-computed non-deleted count as the
total vector count minus the tombstone count, failing when the tombstone count
exceeds the total (an invalid segment). -/
def FragmentedVectorSegment.non_deleted_vectors
    (s : FragmentedVectorSegment) : Except String Nat :=
  if s.num_vectors < s.num_deleted then
    .error "Invalid segment: num_deleted exceeds num_vectors"
  else
    .ok (s.num_vectors - s.num_deleted)

/-- Persisted backfill progress record (`VectorIndexBackfillState`): segment
list, restart cursor and backfill snapshot timestamp.  The cursor and
timestamp are opaque to `vector_meta.rs` (only copied), modelled as `Nat`. -/
structure VectorIndexBackfillState where
  segments : List FragmentedVectorSegment
  cursor : Option Nat
  backfill_snapshot_ts : Option Nat
  deriving DecidableEq, Repr

/-- Persisted vector snapshot data (`VectorIndexSnapshotData`): either a
multi-segment list or a forward-compatible unknown payload.  Note there is no
`SingleSegment` variant on the persisted vector side. -/
inductive VectorIndexSnapshotData where
  | MultiSegment (segments : List FragmentedVectorSegment)
  | Unknown (obj : ConvexObject)
  deriving DecidableEq, Repr

/-- Persisted vector snapshot (`VectorIndexSnapshot`): data plus timestamp. -/
structure VectorIndexSnapshot where
  data : VectorIndexSnapshotData
  ts : Nat
  deriving DecidableEq, Repr

/-- Persisted on-disk lifecycle state of a vector index (`VectorIndexState`). -/
inductive VectorIndexState where
  | Backfilling (backfill_state : VectorIndexBackfillState)
  | Backfilled (snapshot : VectorIndexSnapshot)
  | SnapshottedAt (snapshot : VectorIndexSnapshot)
  deriving DecidableEq, Repr

/-- Generic working snapshot data (`SnapshotData<T>` from `index_meta.rs`),
with the extra `SingleSegment` variant used by non-fragmenting index kinds. -/
inductive SnapshotData (S : Type) where
  | Unknown (obj : ConvexObject)
  | SingleSegment (key : ObjectKey)
  | MultiSegment (segments : List S)
  deriving DecidableEq, Repr

/-- Generic working backfill state (`BackfillState<Index>`). -/
structure BackfillState (S : Type) where
  segments : List S
  cursor : Option Nat
  backfill_snapshot_ts : Option Nat
  deriving DecidableEq, Repr

/-- Generic working snapshot (`SearchSnapshot<Index>`). -/
structure SearchSnapshot (S : Type) where
  ts : Nat
  data : SnapshotData S
  deriving DecidableEq, Repr

/-- Generic working on-disk state (`SearchOnDiskState<Index>`). -/
inductive SearchOnDiskState (S : Type) where
  | Backfilling (state : BackfillState S)
  | Backfilled (snapshot : SearchSnapshot S)
  | SnapshottedAt (snapshot : SearchSnapshot S)
  deriving DecidableEq, Repr

/-- `impl From<VectorIndexBackfillState> for BackfillState<VectorSearchIndex>`:
fieldwise copy. -/
def BackfillState.fromPersisted (value : VectorIndexBackfillState) :
    BackfillState FragmentedVectorSegment :=
  { segments := value.segments
    cursor := value.cursor
    backfill_snapshot_ts := value.backfill_snapshot_ts }

/-- `impl From<BackfillState<VectorSearchIndex>> for VectorIndexBackfillState`:
fieldwise copy. -/
def BackfillState.toPersisted (value : BackfillState FragmentedVectorSegment) :
    VectorIndexBackfillState :=
  { segments := value.segments
    cursor := value.cursor
    backfill_snapshot_ts := value.backfill_snapshot_ts }

/-- `impl From<VectorIndexSnapshotData> for SnapshotData<FragmentedVectorSegment>`:
total, every persisted variant (including `Unknown`) maps to a working one. -/
def SnapshotData.fromPersisted (value : VectorIndexSnapshotData) :
    SnapshotData FragmentedVectorSegment :=
  match value with
  | .MultiSegment values => .MultiSegment values
  | .Unknown obj => .Unknown obj

/-- `impl TryFrom<SnapshotData<FragmentedVectorSegment>> for
VectorIndexSnapshotData`: fails on `SingleSegment`, which is structurally
invalid for the fragmented vector index kind. -/
def SnapshotData.toPersisted (value : SnapshotData FragmentedVectorSegment) :
    Except String VectorIndexSnapshotData :=
  match value with
  | .Unknown obj => .ok (.Unknown obj)
  | .SingleSegment _ => .error "Vector search can't have single segment indexes!"
  | .MultiSegment data => .ok (.MultiSegment data)

/-- `impl From<VectorIndexSnapshot> for SearchSnapshot<VectorSearchIndex>`. -/
def SearchSnapshot.fromPersisted (snapshot : VectorIndexSnapshot) :
    SearchSnapshot FragmentedVectorSegment :=
  { ts := snapshot.ts
    data := SnapshotData.fromPersisted snapshot.data }

/-- `impl TryFrom<SearchSnapshot<VectorSearchIndex>> for VectorIndexSnapshot`:
fails exactly when the snapshot data conversion fails. -/
def SearchSnapshot.toPersisted (value : SearchSnapshot FragmentedVectorSegment) :
    Except String VectorIndexSnapshot := do
  let data ← SnapshotData.toPersisted value.data
  .ok { data := data, ts := value.ts }

/-- `impl From<VectorIndexState> for SearchOnDiskState<VectorSearchIndex>`:
total conversion of the persisted lifecycle state into the working one. -/
def SearchOnDiskState.fromPersisted (value : VectorIndexState) :
    SearchOnDiskState FragmentedVectorSegment :=
  match value with
  | .Backfilling backfill_state =>
      .Backfilling (BackfillState.fromPersisted backfill_state)
  | .Backfilled snapshot => .Backfilled (SearchSnapshot.fromPersisted snapshot)
  | .SnapshottedAt snapshot => .SnapshottedAt (SearchSnapshot.fromPersisted snapshot)

/-- `impl TryFrom<SearchOnDiskState<VectorSearchIndex>> for VectorIndexState`:
`Backfilling` always converts; the snapshot-carrying states convert exactly
when their snapshot data does. -/
def SearchOnDiskState.toPersisted (value : SearchOnDiskState FragmentedVectorSegment) :
    Except String VectorIndexState :=
  match value with
  | .Backfilling state => .ok (.Backfilling (BackfillState.toPersisted state))
  | .Backfilled snapshot => do
      .ok (.Backfilled (← SearchSnapshot.toPersisted snapshot))
  | .SnapshottedAt snapshot => do
      .ok (.SnapshottedAt (← SearchSnapshot.toPersisted snapshot))

/-- Aggregate statistics of a vector index (`VectorStatistics`):
`num_vectors` is a u32 total count, `non_deleted_vectors` a u64 count. -/
structure VectorStatistics where
  num_vectors : Nat
  non_deleted_vectors : Nat
  deriving DecidableEq, Repr

/-- `impl SegmentStatistics for VectorStatistics`, method `add`: combines two
possibly-failed statistics.  The source unwraps `rhs` first (`let rhs = rhs?;
let lhs = lhs?;`), then adds fieldwise. -/
def VectorStatistics.add (lhs rhs : Except String VectorStatistics) :
    Except String VectorStatistics := do
  let rhs ← rhs
  let lhs ← lhs
  .ok { num_vectors := lhs.num_vectors + rhs.num_vectors
        non_deleted_vectors := lhs.non_deleted_vectors + rhs.non_deleted_vectors }

/-- `VectorStatistics::num_documents`: projects `num_vectors` (u32 → u64 cast
is lossless). -/
def VectorStatistics.num_documents (s : VectorStatistics) : Nat :=
  s.num_vectors

/-- `VectorStatistics::num_non_deleted_documents`: projects
`non_deleted_vectors`. -/
def VectorStatistics.num_non_deleted_documents (s : VectorStatistics) : Nat :=
  s.non_deleted_vectors

/-- `impl SegmentType<VectorSearchIndex> for FragmentedVectorSegment`,
method `id`: returns the stored id. -/
def FragmentedVectorSegment.segmentTypeId (s : FragmentedVectorSegment) : String :=
  s.id

/-- `impl SegmentType<VectorSearchIndex> for FragmentedVectorSegment`,
method `num_deleted`: returns the stored tombstone count (u32 → u64 cast). -/
def FragmentedVectorSegment.segmentTypeNumDeleted (s : FragmentedVectorSegment) : Nat :=
  s.num_deleted

/-- `impl SegmentType<VectorSearchIndex> for FragmentedVectorSegment`,
method `statistics`: computes the self-reported non-deleted count and pairs it
with the stored `num_vectors`. -/
def FragmentedVectorSegment.statistics (s : FragmentedVectorSegment) :
    Except String VectorStatistics := do
  let non_deleted_vectors ← s.non_deleted_vectors
  .ok { non_deleted_vectors := non_deleted_vectors
        num_vectors := s.num_vectors }

/-- Opaque developer-supplied vector index definition
(`DeveloperVectorIndexConfig`): never inspected by `vector_meta.rs`. -/
structure DeveloperVectorIndexConfig where
  dimensions : Nat
  vector_field : String
  deriving DecidableEq, Repr

/-- Opaque payload of the `Database` variant of `IndexConfig`. -/
structure DatabaseConfigPayload where
  payload : String
  deriving DecidableEq, Repr

/-- Opaque payload of the `Search` variant of `IndexConfig`. -/
structure SearchConfigPayload where
  payload : String
  deriving DecidableEq, Repr

/-- Persisted index configuration (`IndexConfig`): tagged by index kind. -/
inductive IndexConfig where
  | Database (payload : DatabaseConfigPayload)
  | Search (payload : SearchConfigPayload)
  | Vector (developer_config : DeveloperVectorIndexConfig)
      (on_disk_state : VectorIndexState)
  deriving DecidableEq, Repr

/-- Persisted index metadata record (`TabletIndexMetadata`): a name and a
config.  Only `config` is consumed by `vector_meta.rs`. -/
structure TabletIndexMetadata where
  name : String
  config : IndexConfig
  deriving DecidableEq, Repr

/-- `ParsedDocument<TabletIndexMetadata>`: `into_value()` yields the value. -/
structure ParsedDocument where
  value : TabletIndexMetadata
  deriving DecidableEq, Repr

/-- Working per-kind index configuration (`SearchIndexConfig<Index>`),
specialized to the vector index kind. -/
structure SearchIndexConfig where
  developer_config : DeveloperVectorIndexConfig
  on_disk_state : SearchOnDiskState FragmentedVectorSegment
  deriving DecidableEq, Repr

/-- `VectorIndexConfigParser::get_config`: returns the working config for a
`Vector` index config, `none` for any other kind. -/
def VectorIndexConfigParser.get_config (config : IndexConfig) :
    Option SearchIndexConfig :=
  match config with
  | .Vector developer_config on_disk_state =>
      some { developer_config := developer_config
             on_disk_state := SearchOnDiskState.fromPersisted on_disk_state }
  | _ => none

/-- `VectorSearchIndex::extract_metadata`: fails with an index-kind-changed
error unless the persisted record's config is the `Vector` variant, in which
case it returns the developer config and the converted on-disk state. -/
def VectorSearchIndex.extract_metadata (metadata : ParsedDocument) :
    Except String (DeveloperVectorIndexConfig × SearchOnDiskState FragmentedVectorSegment) :=
  match metadata.value.config with
  | .Database _ => .error "Index type changed!"
  | .Search _ => .error "Index type changed!"
  | .Vector developer_config on_disk_state =>
      .ok (developer_config, SearchOnDiskState.fromPersisted on_disk_state)

/-- Opaque resolved document (`ResolvedDocument`): its contents are irrelevant
to `estimate_document_size`, which ignores the document argument. -/
structure ResolvedDocument where
  id : Nat
  body : String
  deriving DecidableEq, Repr

/-- The vector schema (`QdrantSchema`) as seen by `vector_meta.rs`: an
injected capability whose only operation used here is the pure
`estimate_vector_size(&self)`, modelled as a stored size. -/
structure QdrantSchema where
  estimate_vector_size : Nat
  deriving DecidableEq, Repr

/-- `VectorSearchIndex::estimate_document_size`: returns
`schema.estimate_vector_size() as u64`, ignoring the document (`_doc`). -/
def VectorSearchIndex.estimate_document_size (schema : QdrantSchema)
    (_doc : ResolvedDocument) : Nat :=
  schema.estimate_vector_size

/-- Helper: whether an `Except` computation failed. -/
def isErr {ε α : Type} : Except ε α → Bool
  | .error _ => true
  | .ok _ => false

/-- C1: converting a working `SearchOnDiskState` of the vector index kind to
the persisted `VectorIndexState` fails if and only if it is a `Backfilled` or
`SnapshottedAt` state whose snapshot data is the `SingleSegment` variant;
`Backfilling` states and `MultiSegment`/`Unknown` snapshot data always convert
successfully. -/
theorem toPersisted_fails_iff_single_segment
    (s : SearchOnDiskState FragmentedVectorSegment) :
    isErr (SearchOnDiskState.toPersisted s) = true ↔
      ((∃ snap key, s = .Backfilled snap ∧ snap.data = .SingleSegment key) ∨
       (∃ snap key, s = .SnapshottedAt snap ∧ snap.data = .SingleSegment key)) := by
  cases s with
  | Backfilling st =>
      simp [SearchOnDiskState.toPersisted, isErr]
  | Backfilled snap =>
      obtain ⟨ts, data⟩ := snap
      cases data <;>
        simp [SearchOnDiskState.toPersisted, SearchSnapshot.toPersisted,
          SnapshotData.toPersisted, isErr, Bind.bind, Except.bind]
  | SnapshottedAt snap =>
      obtain ⟨ts, data⟩ := snap
      cases data <;>
        simp [SearchOnDiskState.toPersisted, SearchSnapshot.toPersisted,
          SnapshotData.toPersisted, isErr, Bind.bind, Except.bind]

/-- C2: on successful (`Ok`) statistics, `add` is associative and commutative,
so segments can be folded in any order with the same result. -/
theorem vectorStatistics_add_assoc_comm (a b c : VectorStatistics) :
    VectorStatistics.add (VectorStatistics.add (.ok a) (.ok b)) (.ok c) =
      VectorStatistics.add (.ok a) (VectorStatistics.add (.ok b) (.ok c)) ∧
    VectorStatistics.add (.ok a) (.ok b) = VectorStatistics.add (.ok b) (.ok a) := by
  constructor <;>
    simp [VectorStatistics.add, Bind.bind, Except.bind, VectorStatistics.mk.injEq] <;>
    constructor <;> omega

/-- C3 counterexample: the claim says that when both inputs are errors the
left-hand error is returned, but `add` unwraps the right-hand side first, so
`add (error "left") (error "right")` returns the right-hand error. -/
theorem add_both_errors_returns_right_not_left :
    VectorStatistics.add (.error "left") (.error "right") = .error "right" ∧
    VectorStatistics.add (.error "left") (.error "right") ≠ .error "left" := by
  constructor
  · rfl
  · simp [VectorStatistics.add, Bind.bind, Except.bind]

/-- C3 (amended): `add` propagates failure — `add a (error e)` and
`add (error e) b` are always errors — and when both inputs are errors the
right-hand error is the one returned. -/
theorem add_propagates_failure (a b : Except String VectorStatistics)
    (e e₁ e₂ : String) :
    isErr (VectorStatistics.add a (.error e)) = true ∧
    isErr (VectorStatistics.add (.error e) b) = true ∧
    VectorStatistics.add (.error e₁) (.error e₂) = .error e₂ := by
  refine ⟨?_, ?_, rfl⟩
  · cases a <;> rfl
  · cases b <;> rfl

/-- C4: `extract_metadata` returns the developer config and the converted
on-disk state exactly when the persisted record's config is the `Vector`
variant, and fails with the index-kind-changed error for `Database` and
`Search` configs. -/
theorem extract_metadata_spec (md : ParsedDocument) :
    (∀ dc st, md.value.config = .Vector dc st →
        VectorSearchIndex.extract_metadata md =
          .ok (dc, SearchOnDiskState.fromPersisted st)) ∧
    ((∀ dc st, md.value.config ≠ .Vector dc st) →
        VectorSearchIndex.extract_metadata md = .error "Index type changed!") := by
  constructor
  · intro dc st h
    simp [VectorSearchIndex.extract_metadata, h]
  · intro h
    cases hc : md.value.config with
    | Database p => simp [VectorSearchIndex.extract_metadata, hc]
    | Search p => simp [VectorSearchIndex.extract_metadata, hc]
    | Vector dc st => exact absurd hc (h dc st)

/-- C4 witness: a concrete `Vector`-config record extracts successfully and a
concrete `Database`-config record fails with the index-kind-changed error. -/
theorem extract_metadata_spec_witness :
    VectorSearchIndex.extract_metadata
        ⟨⟨"idx", .Vector ⟨2, "emb"⟩ (.Backfilling ⟨[], none, none⟩)⟩⟩ =
      .ok (⟨2, "emb"⟩,
        SearchOnDiskState.fromPersisted (.Backfilling ⟨[], none, none⟩)) ∧
    VectorSearchIndex.extract_metadata ⟨⟨"idx", .Database ⟨"db"⟩⟩⟩ =
      .error "Index type changed!" :=
  ⟨(extract_metadata_spec _).1 _ _ rfl,
   (extract_metadata_spec _).2 (by intro dc st h; cases h)⟩

/-- C5: the persisted-to-working conversions are total: every persisted
`VectorIndexSnapshotData` (including the `Unknown` opaque payload) and every
persisted `VectorIndexState` converts, with no error branch in either
function — their codomains are the plain working types, and each variant maps
to the corresponding working variant. -/
theorem from_persisted_total :
    (∀ d : VectorIndexSnapshotData, SnapshotData.fromPersisted d =
      match d with
      | .MultiSegment values => .MultiSegment values
      | .Unknown obj => .Unknown obj) ∧
    (∀ s : VectorIndexState, SearchOnDiskState.fromPersisted s =
      match s with
      | .Backfilling b => .Backfilling (BackfillState.fromPersisted b)
      | .Backfilled snap => .Backfilled (SearchSnapshot.fromPersisted snap)
      | .SnapshottedAt snap => .SnapshottedAt (SearchSnapshot.fromPersisted snap)) := by
  constructor
  · intro d
    cases d <;> rfl
  · intro s
    cases s <;> rfl

/-- C6: round trip — converting any persisted `VectorIndexState` to the
working representation and back succeeds and returns it unchanged, preserving
the `Unknown` opaque payload, the backfill segments/cursor/timestamp, and the
snapshot timestamp and segment list. -/
theorem roundtrip_to_persisted_after_from_persisted (s : VectorIndexState) :
    SearchOnDiskState.toPersisted (SearchOnDiskState.fromPersisted s) = .ok s := by
  cases s with
  | Backfilling b => rfl
  | Backfilled snap =>
      obtain ⟨data, ts⟩ := snap
      cases data <;> rfl
  | SnapshottedAt snap =>
      obtain ⟨data, ts⟩ := snap
      cases data <;> rfl

/-- C7: `num_documents` and `num_non_deleted_documents` are pure projections
of the `num_vectors` and `non_deleted_vectors` fields of `VectorStatistics`. -/
theorem statistics_projections (s : VectorStatistics) :
    s.num_documents = s.num_vectors ∧
    s.num_non_deleted_documents = s.non_deleted_vectors :=
  ⟨rfl, rfl⟩

/-- C8: the `SegmentType` implementation for `FragmentedVectorSegment` returns
the stored id from `id()` and the stored tombstone count from `num_deleted()`,
and when `statistics()` succeeds the result carries the segment's own
`num_vectors` metadata field together with its self-computed non-deleted
count — all from metadata alone. -/
theorem segment_type_spec (seg : FragmentedVectorSegment) :
    seg.segmentTypeId = seg.id ∧
    seg.segmentTypeNumDeleted = seg.num_deleted ∧
    ∀ st, seg.statistics = .ok st →
      st.num_vectors = seg.num_vectors ∧
      Except.ok st.non_deleted_vectors = seg.non_deleted_vectors := by
  refine ⟨rfl, rfl, ?_⟩
  intro st h
  cases hnd : seg.non_deleted_vectors with
  | error e =>
      rw [FragmentedVectorSegment.statistics, hnd] at h
      cases h
  | ok n =>
      rw [FragmentedVectorSegment.statistics, hnd] at h
      cases h
      exact ⟨rfl, rfl⟩

/-- C8 witness: on a concrete segment with 5 vectors and 2 tombstones the
statistics succeed with `num_vectors = 5` and 3 non-deleted vectors. -/
theorem segment_type_spec_witness :
    FragmentedVectorSegment.segmentTypeId ⟨"s1", 5, 2⟩ = "s1" ∧
    FragmentedVectorSegment.segmentTypeNumDeleted ⟨"s1", 5, 2⟩ = 2 ∧
    (⟨5, 3⟩ : VectorStatistics).num_vectors = 5 ∧
    Except.ok (⟨5, 3⟩ : VectorStatistics).non_deleted_vectors =
      FragmentedVectorSegment.non_deleted_vectors ⟨"s1", 5, 2⟩ := by
  have h := segment_type_spec ⟨"s1", 5, 2⟩
  exact ⟨h.1, h.2.1, h.2.2 ⟨5, 3⟩ rfl⟩

/-- C9: `estimate_document_size` for the vector index kind ignores the
document: for any schema, all documents get the same estimate. -/
theorem estimate_document_size_ignores_document (schema : QdrantSchema)
    (d₁ d₂ : ResolvedDocument) :
    VectorSearchIndex.estimate_document_size schema d₁ =
      VectorSearchIndex.estimate_document_size schema d₂ :=
  rfl

/-- C10: `VectorIndexConfigParser::get_config` returns `some` exactly on the
`Vector` variant of `IndexConfig`, carrying the developer config unchanged and
the on-disk state converted by the total `from_persisted` conversion, and
returns `none` on every other variant. -/
theorem get_config_spec (config : IndexConfig) :
    (∀ dc st, config = .Vector dc st →
        VectorIndexConfigParser.get_config config =
          some { developer_config := dc
                 on_disk_state := SearchOnDiskState.fromPersisted st }) ∧
    ((VectorIndexConfigParser.get_config config).isSome = true ↔
      ∃ dc st, config = .Vector dc st) := by
  constructor
  · intro dc st h
    simp [VectorIndexConfigParser.get_config, h]
  · cases config <;> simp [VectorIndexConfigParser.get_config]

/-- C10 witness: on a concrete `Vector` config, `get_config` returns the
expected working config; the `isSome` characterization is witnessed there. -/
theorem get_config_spec_witness :
    VectorIndexConfigParser.get_config
        (.Vector ⟨4, "vec"⟩ (.Backfilling ⟨[], some 7, none⟩)) =
      some { developer_config := ⟨4, "vec"⟩
             on_disk_state :=
               SearchOnDiskState.fromPersisted (.Backfilling ⟨[], some 7, none⟩) } ∧
    (VectorIndexConfigParser.get_config
        (.Vector ⟨4, "vec"⟩ (.Backfilling ⟨[], some 7, none⟩))).isSome = true :=
  ⟨(get_config_spec _).1 _ _ rfl,
   (get_config_spec (.Vector ⟨4, "vec"⟩ (.Backfilling ⟨[], some 7, none⟩))).2.mpr
     ⟨_, _, rfl⟩⟩

end VectorMeta
